import Mathlib

/-!
Shallow embedding of `canvas_to_notion.py` (CanvasToNotion repository).

Timestamps (Python `datetime` values) are modelled as integers counting an
abstract unit since an epoch; the Python `datetime` library functions used by
the script (`datetime.fromisoformat`, `datetime.isoformat`,
`datetime.date().isoformat`) are external collaborators and are passed in as
abstract parameters bundled in `DatetimeLib`.  `fromisoformat` returns
`Option Int`: `none` models the exception raised on a malformed string (which
`parse_canvas_datetime` catches and converts to `None`).

JSON numbers (`points_possible`, submission `score`) are modelled as `Rat`;
Python's `float(...)` coercion on a JSON numeric value is the identity in this
model.  Optional JSON fields (absent key or `null`) are `Option` values.
-/

set_option maxRecDepth 100000

namespace CanvasToNotion

/-- External collaborator: the Python `datetime` library operations used by the
script.  `fromisoformat` returns `none` where Python would raise. -/
structure DatetimeLib where
  fromisoformat : String → Option Int
  isoformat : Int → String
  dateIsoformat : Int → String

/-- A Canvas submission object as read by the script: the script reads
`workflow_state` is present on Canvas submissions but the script reads only
`score` and `submitted_at`. -/
structure Submission where
  workflow_state : Option String
  submitted_at : Option String
  score : Option Rat
  deriving Repr, DecidableEq

/-- A Canvas assignment object, restricted to the fields the script reads. -/
structure Assignment where
  id : Nat
  name : Option String
  due_at : Option String
  updated_at : Option String
  description : Option String
  points_possible : Option Rat
  html_url : Option String
  deriving Repr, DecidableEq

/-- Embeds `parse_canvas_datetime` (src lines 71-78): empty/absent value gives
`None`; otherwise `"Z"` is replaced by `"+00:00"` and the string is handed to
`datetime.fromisoformat`, any exception (modelled by `fromisoformat`
returning `none`) being caught and converted to `None`. -/
def parse_canvas_datetime (fromisoformat : String → Option Int)
    (value : Option String) : Option Int :=
  match value with
  | none => none
  | some v =>
    if v = "" then none
    else fromisoformat (v.replace "Z" "+00:00")

/-- Embeds `assignment_passes_due_date_filter` (src lines 96-124).  The two
globals `DUE_DATE_START_DT` / `DUE_DATE_END_DT` (precomputed by
`parse_filter_date`) are passed as parameters.  The Python `if`-chain tests
truthiness of the two optional datetimes; a `datetime` is always truthy, so
the chain is exactly a case split on which of the two bounds is `None`. -/
def assignment_passes_due_date_filter (fromisoformat : String → Option Int)
    (start_dt end_dt : Option Int) (include_without_due_date : Bool)
    (assignment : Assignment) : Bool :=
  match parse_canvas_datetime fromisoformat assignment.due_at with
  | none => include_without_due_date
  | some due =>
    match start_dt, end_dt with
    | some s, some e => decide (s ≤ due ∧ due ≤ e)
    | none, some e => decide (due ≤ e)
    | some s, none => decide (s ≤ due)
    | none, none => true

/-- A Notion property value as built by `create_assignment_page` (one entry
of the `props` dict).  `url` carries an `Option` because the script always
sends the `Link` property with `{"url": canvas_url}` where `canvas_url` may
be `None` (an explicit JSON null). -/
inductive PropValue
  | title (content : String)
  | rich_text (content : String)
  | url (u : Option String)
  | select (name : String)
  | date (start : String)
  | number (n : Rat)
  deriving Repr, DecidableEq

/-- Models the Python pattern `if value: props[key] = pv`: the key/value pair
is appended to the property list exactly when the value is present. -/
def optProp (key : String) (v : Option PropValue) : List (String × PropValue) :=
  match v with
  | some pv => [(key, pv)]
  | none => []

/-- Embeds the inline status logic of `create_assignment_page`
(src lines 374-381): a present submission object gives `"Completed"`;
otherwise a due date strictly before `now` gives `"Overdue"`; otherwise
`"Not Started"`.  The submission's `workflow_state` is never consulted. -/
def resolve_status (now : Int) (due_at : Option Int) (has_submitted : Bool) :
    String :=
  if has_submitted then "Completed"
  else if (match due_at with
           | some d => decide (d < now)
           | none => false) then "Overdue"
  else "Not Started"

/-- Embeds the `props` dict built by `create_assignment_page`
(src lines 344-452), in the construction order of the source: the base dict
with `Name`, `Class`, `ID`, `Link`, `Status`, followed by the conditionally
added optional properties in source order.  `float(...)` on the JSON numeric
values `points_possible` / `score` is the identity in this model (it cannot
raise on a numeric input, so the `try/except: pass` around it never omits a
present numeric value). -/
def create_assignment_page_props (lib : DatetimeLib) (now : Int)
    (course_short_name : String) (assignment : Assignment)
    (submission : Option Submission) : List (String × PropValue) :=
  let assignment_name :=
    match assignment.name with
    | some n => if n = "" then "Untitled Assignment" else n
    | none => "Untitled Assignment"
  let canvas_url := assignment.html_url
  let canvas_id := toString assignment.id
  let updated_at := parse_canvas_datetime lib.fromisoformat assignment.updated_at
  let due_at := parse_canvas_datetime lib.fromisoformat assignment.due_at
  let points_possible := assignment.points_possible
  let score := match submission with
    | some s => s.score
    | none => none
  let submitted_at := match submission with
    | some s => parse_canvas_datetime lib.fromisoformat s.submitted_at
    | none => none
  let has_submitted := submission.isSome
  let status_name := resolve_status now due_at has_submitted
  [("Name", PropValue.title assignment_name),
   ("Class", PropValue.rich_text course_short_name),
   ("ID", PropValue.rich_text canvas_id),
   ("Link", PropValue.url canvas_url),
   ("Status", PropValue.select status_name)]
  ++ (optProp "Assignment Updated Date"
        (updated_at.map (fun u => PropValue.date (lib.isoformat u)))
  ++ (optProp "Description"
        (match assignment.description with
         | some d => if d = "" then none
                     else some (PropValue.rich_text
                       (String.mk (d.data.take 1900)))
         | none => none)
  ++ (optProp "Due Date"
        (due_at.map (fun d => PropValue.date (lib.dateIsoformat d)))
  ++ (optProp "Points" (points_possible.map PropValue.number)
  ++ (optProp "Score" (score.map PropValue.number)
  ++ optProp "Submitted Date"
        (submitted_at.map (fun s => PropValue.date (lib.isoformat s))))))))

/-- A field type of the Notion database schema as built by
`build_db_properties_schema`; select fields carry their option list as
(name, color) pairs. -/
inductive FieldType
  | title
  | rich_text
  | date
  | url
  | number
  | select (options : List (String × String))
  deriving Repr, DecidableEq

/-- Embeds `build_db_properties_schema` (src lines 271-307): the legacy
schema, as a name-to-type association list in source order. -/
def build_db_properties_schema : List (String × FieldType) :=
  [("Name", FieldType.title),
   ("Assignment Updated Date", FieldType.date),
   ("Class", FieldType.rich_text),
   ("Description", FieldType.rich_text),
   ("Due Date", FieldType.date),
   ("ID", FieldType.rich_text),
   ("Link", FieldType.url),
   ("Points", FieldType.number),
   ("Score", FieldType.number),
   ("Status", FieldType.select
      [("Overdue", "yellow"), ("In Progress", "orange"),
       ("Completed", "green"), ("Not Started", "blue")]),
   ("Submitted Date", FieldType.date)]

/-- The names of the select options of the `Status` field in the schema of a
freshly created database. -/
def schema_status_options : List String :=
  match List.lookup "Status" build_db_properties_schema with
  | some (FieldType.select opts) => opts.map Prod.fst
  | _ => []

/-- A page (target record) created in the Notion database: its property
payload. -/
structure TargetRecord where
  props : List (String × PropValue)
  deriving Repr, DecidableEq

/-- Embeds the effect of `create_assignment_page` (src lines 344-456) on the
store: it unconditionally POSTs a new page built from the assignment, with no
lookup of an existing page; the store (the list of pages of the database, in
creation order) grows by one. -/
def create_assignment_page (lib : DatetimeLib) (now : Int)
    (course_short_name : String) (assignment : Assignment)
    (submission : Option Submission) (store : List TargetRecord) :
    List TargetRecord :=
  store ++ [{ props := create_assignment_page_props lib now course_short_name
                assignment submission }]

/-- Whether a target record's `ID` property (the identity field) equals the
given natural key, rendered as text. -/
def record_identity_matches (key : String) (r : TargetRecord) : Bool :=
  decide (List.lookup "ID" r.props = some (PropValue.rich_text key))

/-- The number of records in a store whose identity field equals `key`. -/
def countWithKey (key : String) (store : List TargetRecord) : Nat :=
  (store.filter (record_identity_matches key)).length

/-- A convenient concrete assignment; individual tests update single fields. -/
def baseAssignment : Assignment :=
  { id := 7, name := some "HW 1", due_at := none, updated_at := none,
    description := none, points_possible := none, html_url := none }

/-- A concrete datetime collaborator for witnesses and counterexamples:
parsing always fails, formatting is constant. -/
def lib0 : DatetimeLib :=
  { fromisoformat := fun _ => none, isoformat := fun _ => "",
    dateIsoformat := fun _ => "" }

/-- A concrete datetime collaborator whose parse always succeeds with a fixed
instant `t`. -/
def libConst (t : Int) : DatetimeLib :=
  { fromisoformat := fun _ => some t, isoformat := fun _ => "iso",
    dateIsoformat := fun _ => "date" }

theorem lookup_skip_optProp (k k2 : String) (v : Option PropValue)
    (rest : List (String × PropValue)) (h : (k == k2) = false) :
    List.lookup k (optProp k2 v ++ rest) = List.lookup k rest := by
  cases v <;> simp [optProp, List.lookup_cons, h]

theorem lookup_at_optProp_some (k : String) (pv : PropValue)
    (rest : List (String × PropValue)) :
    List.lookup k (optProp k (some pv) ++ rest) = some pv := by
  simp [optProp, List.lookup_cons]

theorem lookup_at_optProp_none (k : String)
    (rest : List (String × PropValue)) :
    List.lookup k (optProp k none ++ rest) = List.lookup k rest := by
  simp [optProp]

theorem lookup_optProp_ne_last (k k2 : String) (v : Option PropValue)
    (h : (k == k2) = false) : List.lookup k (optProp k2 v) = none := by
  cases v <;> simp [optProp, List.lookup_cons, h]

theorem lookup_optProp_last_eq (k : String) (v : Option PropValue) :
    List.lookup k (optProp k v) = v := by
  cases v <;> simp [optProp, List.lookup_cons]

/-- The `Status` property of every built page is the resolved status. -/
theorem props_lookup_Status (lib : DatetimeLib) (now : Int) (cname : String)
    (a : Assignment) (sub : Option Submission) :
    List.lookup "Status" (create_assignment_page_props lib now cname a sub)
      = some (PropValue.select (resolve_status now
          (parse_canvas_datetime lib.fromisoformat a.due_at) sub.isSome)) :=
  rfl

/-- The `ID` property of every built page is the assignment id as text. -/
theorem props_lookup_ID (lib : DatetimeLib) (now : Int) (cname : String)
    (a : Assignment) (sub : Option Submission) :
    List.lookup "ID" (create_assignment_page_props lib now cname a sub)
      = some (PropValue.rich_text (toString a.id)) :=
  rfl

/-- The `Link` property of every built page is present and carries
`html_url` as its (possibly null) url value. -/
theorem props_lookup_Link (lib : DatetimeLib) (now : Int) (cname : String)
    (a : Assignment) (sub : Option Submission) :
    List.lookup "Link" (create_assignment_page_props lib now cname a sub)
      = some (PropValue.url a.html_url) :=
  rfl

/-- Skipping the five unconditionally present base properties. -/
theorem lookup_base_skip (k : String) (x1 x2 x3 x4 x5 : PropValue)
    (r : List (String × PropValue))
    (h1 : (k == "Name") = false) (h2 : (k == "Class") = false)
    (h3 : (k == "ID") = false) (h4 : (k == "Link") = false)
    (h5 : (k == "Status") = false) :
    List.lookup k ([("Name", x1), ("Class", x2), ("ID", x3), ("Link", x4),
      ("Status", x5)] ++ r) = List.lookup k r := by
  simp [List.lookup_cons, h1, h2, h3, h4, h5]

theorem lookup_at_optProp (k : String) (v : Option PropValue)
    (rest : List (String × PropValue)) (h : List.lookup k rest = none) :
    List.lookup k (optProp k v ++ rest) = v := by
  cases v <;> simp [optProp, List.lookup_cons, h]

/-- The `Assignment Updated Date` property is present iff `updated_at`
parses, and then carries the formatted instant. -/
theorem props_lookup_UpdatedDate (lib : DatetimeLib) (now : Int)
    (cname : String) (a : Assignment) (sub : Option Submission) :
    List.lookup "Assignment Updated Date"
        (create_assignment_page_props lib now cname a sub)
      = (parse_canvas_datetime lib.fromisoformat a.updated_at).map
          (fun u => PropValue.date (lib.isoformat u)) := by
  simp only [create_assignment_page_props]
  rw [lookup_base_skip "Assignment Updated Date" _ _ _ _ _ _
        rfl rfl rfl rfl rfl,
      lookup_at_optProp "Assignment Updated Date" _ _ (by
        rw [lookup_skip_optProp "Assignment Updated Date" "Description" _ _ rfl,
            lookup_skip_optProp "Assignment Updated Date" "Due Date" _ _ rfl,
            lookup_skip_optProp "Assignment Updated Date" "Points" _ _ rfl,
            lookup_skip_optProp "Assignment Updated Date" "Score" _ _ rfl,
            lookup_optProp_ne_last "Assignment Updated Date" "Submitted Date"
              _ rfl])]

/-- The `Description` property is present iff the source description is
present and non-empty, and then carries the first 1900 characters of the raw
description text. -/
theorem props_lookup_Description (lib : DatetimeLib) (now : Int)
    (cname : String) (a : Assignment) (sub : Option Submission) :
    List.lookup "Description"
        (create_assignment_page_props lib now cname a sub)
      = (match a.description with
         | some d => if d = "" then none
                     else some (PropValue.rich_text
                       (String.mk (d.data.take 1900)))
         | none => none) := by
  simp only [create_assignment_page_props]
  rw [lookup_base_skip "Description" _ _ _ _ _ _ rfl rfl rfl rfl rfl,
      lookup_skip_optProp "Description" "Assignment Updated Date" _ _ rfl,
      lookup_at_optProp "Description" _ _ (by
        rw [lookup_skip_optProp "Description" "Due Date" _ _ rfl,
            lookup_skip_optProp "Description" "Points" _ _ rfl,
            lookup_skip_optProp "Description" "Score" _ _ rfl,
            lookup_optProp_ne_last "Description" "Submitted Date" _ rfl])]

/-- The `Due Date` property is present iff `due_at` parses, and then carries
the formatted calendar date. -/
theorem props_lookup_DueDate (lib : DatetimeLib) (now : Int) (cname : String)
    (a : Assignment) (sub : Option Submission) :
    List.lookup "Due Date" (create_assignment_page_props lib now cname a sub)
      = (parse_canvas_datetime lib.fromisoformat a.due_at).map
          (fun d => PropValue.date (lib.dateIsoformat d)) := by
  simp only [create_assignment_page_props]
  rw [lookup_base_skip "Due Date" _ _ _ _ _ _ rfl rfl rfl rfl rfl,
      lookup_skip_optProp "Due Date" "Assignment Updated Date" _ _ rfl,
      lookup_skip_optProp "Due Date" "Description" _ _ rfl,
      lookup_at_optProp "Due Date" _ _ (by
        rw [lookup_skip_optProp "Due Date" "Points" _ _ rfl,
            lookup_skip_optProp "Due Date" "Score" _ _ rfl,
            lookup_optProp_ne_last "Due Date" "Submitted Date" _ rfl])]

/-- The `Points` property is present iff `points_possible` is present, and
then carries its float value (identity on a JSON numeric in this model). -/
theorem props_lookup_Points (lib : DatetimeLib) (now : Int) (cname : String)
    (a : Assignment) (sub : Option Submission) :
    List.lookup "Points" (create_assignment_page_props lib now cname a sub)
      = a.points_possible.map PropValue.number := by
  simp only [create_assignment_page_props]
  rw [lookup_base_skip "Points" _ _ _ _ _ _ rfl rfl rfl rfl rfl,
      lookup_skip_optProp "Points" "Assignment Updated Date" _ _ rfl,
      lookup_skip_optProp "Points" "Description" _ _ rfl,
      lookup_skip_optProp "Points" "Due Date" _ _ rfl,
      lookup_at_optProp "Points" _ _ (by
        rw [lookup_skip_optProp "Points" "Score" _ _ rfl,
            lookup_optProp_ne_last "Points" "Submitted Date" _ rfl])]

/-- The `Score` property is present iff a submission with a present `score`
exists, and then carries the float score. -/
theorem props_lookup_Score (lib : DatetimeLib) (now : Int) (cname : String)
    (a : Assignment) (sub : Option Submission) :
    List.lookup "Score" (create_assignment_page_props lib now cname a sub)
      = (match sub with
         | some s => s.score
         | none => none).map PropValue.number := by
  simp only [create_assignment_page_props]
  rw [lookup_base_skip "Score" _ _ _ _ _ _ rfl rfl rfl rfl rfl,
      lookup_skip_optProp "Score" "Assignment Updated Date" _ _ rfl,
      lookup_skip_optProp "Score" "Description" _ _ rfl,
      lookup_skip_optProp "Score" "Due Date" _ _ rfl,
      lookup_skip_optProp "Score" "Points" _ _ rfl,
      lookup_at_optProp "Score" _ _
        (lookup_optProp_ne_last "Score" "Submitted Date" _ rfl)]

/-- The `Submitted Date` property is present iff a submission with a
parseable `submitted_at` exists, and then carries the formatted instant. -/
theorem props_lookup_SubmittedDate (lib : DatetimeLib) (now : Int)
    (cname : String) (a : Assignment) (sub : Option Submission) :
    List.lookup "Submitted Date"
        (create_assignment_page_props lib now cname a sub)
      = (match sub with
         | some s => parse_canvas_datetime lib.fromisoformat s.submitted_at
         | none => none).map (fun t => PropValue.date (lib.isoformat t)) := by
  simp only [create_assignment_page_props]
  rw [lookup_base_skip "Submitted Date" _ _ _ _ _ _ rfl rfl rfl rfl rfl,
      lookup_skip_optProp "Submitted Date" "Assignment Updated Date" _ _ rfl,
      lookup_skip_optProp "Submitted Date" "Description" _ _ rfl,
      lookup_skip_optProp "Submitted Date" "Due Date" _ _ rfl,
      lookup_skip_optProp "Submitted Date" "Points" _ _ rfl,
      lookup_skip_optProp "Submitted Date" "Score" _ _ rfl,
      lookup_optProp_last_eq "Submitted Date" _]

/-- C3: the window filter returns `include_undated` when the record has no
(parseable) due date, regardless of the bounds; `start <= due <= end`
(inclusive both ends) when both bounds are set; `due <= end` when only the end
bound is set; `due >= start` when only the start bound is set; and `true` when
neither bound is set. -/
theorem window_filter_rules (fromisoformat : String → Option Int)
    (inc : Bool) :
    (∀ start_dt end_dt a,
      parse_canvas_datetime fromisoformat a.due_at = none →
      assignment_passes_due_date_filter fromisoformat start_dt end_dt inc a
        = inc) ∧
    (∀ s e a d, parse_canvas_datetime fromisoformat a.due_at = some d →
      assignment_passes_due_date_filter fromisoformat (some s) (some e) inc a
        = decide (s ≤ d ∧ d ≤ e)) ∧
    (∀ e a d, parse_canvas_datetime fromisoformat a.due_at = some d →
      assignment_passes_due_date_filter fromisoformat none (some e) inc a
        = decide (d ≤ e)) ∧
    (∀ s a d, parse_canvas_datetime fromisoformat a.due_at = some d →
      assignment_passes_due_date_filter fromisoformat (some s) none inc a
        = decide (s ≤ d)) ∧
    (∀ a d, parse_canvas_datetime fromisoformat a.due_at = some d →
      assignment_passes_due_date_filter fromisoformat none none inc a
        = true) := by
  refine ⟨?_, ?_, ?_, ?_, ?_⟩
  · intro start_dt end_dt a h
    simp [assignment_passes_due_date_filter, h]
  · intro s e a d h
    simp [assignment_passes_due_date_filter, h]
  · intro e a d h
    simp [assignment_passes_due_date_filter, h]
  · intro s a d h
    simp [assignment_passes_due_date_filter, h]
  · intro a d h
    simp [assignment_passes_due_date_filter, h]

/-- Concrete instantiation of `window_filter_rules`: a due date parsing to
instant 5 inside the window `[0, 10]` is included. -/
theorem window_filter_rules_witness :
    assignment_passes_due_date_filter (fun _ => some 5) (some 0) (some 10) true
      { baseAssignment with due_at := some "2024-01-15T00:00:00Z" } = true := by
  have h := (window_filter_rules (fun _ => some 5) true).2.1 0 10
    { baseAssignment with due_at := some "2024-01-15T00:00:00Z" } 5 rfl
  simpa using h

/-- C6: a present but unparseable `due_at` (the `fromisoformat` collaborator
raises, modelled by returning `none`) makes the record behave exactly like a
record with no due date: the filter returns the `include_undated` flag and
agrees with the filter applied to the same record with `due_at` removed.  The
exception is caught inside `parse_canvas_datetime`, so the run is not
aborted: the filter is a total function. -/
theorem unparseable_due_date_like_absent (fromisoformat : String → Option Int)
    (start_dt end_dt : Option Int) (inc : Bool) (a : Assignment) (v : String)
    (hv : a.due_at = some v)
    (hbad : fromisoformat (v.replace "Z" "+00:00") = none) :
    assignment_passes_due_date_filter fromisoformat start_dt end_dt inc a
        = inc ∧
    assignment_passes_due_date_filter fromisoformat start_dt end_dt inc a
        = assignment_passes_due_date_filter fromisoformat start_dt end_dt inc
            { a with due_at := none } := by
  have hparse : parse_canvas_datetime fromisoformat a.due_at = none := by
    rw [hv]
    simp only [parse_canvas_datetime]
    split
    · rfl
    · exact hbad
  have h1 : assignment_passes_due_date_filter fromisoformat start_dt end_dt
      inc a = inc := by
    simp [assignment_passes_due_date_filter, hparse]
  have h2 : assignment_passes_due_date_filter fromisoformat start_dt end_dt
      inc { a with due_at := none } = inc := by
    simp [assignment_passes_due_date_filter, parse_canvas_datetime]
  exact ⟨h1, h1.trans h2.symm⟩

/-- Concrete instantiation of `unparseable_due_date_like_absent`: with a
collaborator that fails on every string, a garbage `due_at` yields the
`include_undated` flag (here `false`). -/
theorem unparseable_due_date_like_absent_witness :
    assignment_passes_due_date_filter (fun _ => none) (some 0) (some 10) false
      { baseAssignment with due_at := some "not-a-date" } = false :=
  (unparseable_due_date_like_absent (fun _ => none) (some 0) (some 10) false
    { baseAssignment with due_at := some "not-a-date" } "not-a-date" rfl
    rfl).1

/-- C4 counterexample: a submission sub-object carrying an explicit
`workflow_state = "unsubmitted"` still resolves to `Completed` (not the
claimed `NotStarted`): the script sets `has_submitted = True` for any present
submission object and never reads `workflow_state`. -/
theorem unsubmitted_override_counterexample :
    List.lookup "Status" (create_assignment_page_props lib0 0 "CS101"
        baseAssignment
        (some { workflow_state := some "unsubmitted", submitted_at := none,
                score := none }))
      = some (PropValue.select "Completed") ∧
    PropValue.select "Completed" ≠ PropValue.select "Not Started" :=
  ⟨rfl, by decide⟩

/-- C4 amended: any record whose submission sub-object is present resolves to
`Completed`, regardless of the submission's `workflow_state` (including an
explicit `"unsubmitted"`); `workflow_state` is never consulted. -/
theorem submission_present_forces_completed (lib : DatetimeLib) (now : Int)
    (cname : String) (a : Assignment) (s : Submission) :
    List.lookup "Status"
        (create_assignment_page_props lib now cname a (some s))
      = some (PropValue.select "Completed") :=
  rfl

/-- C5 counterexample: with no submission and a due date at `now` (hence at
or after `now`), the resolved status is `Not Started`, not the claimed
`In Progress`/`Pending`; the script never produces an `In Progress` label. -/
theorem due_future_not_in_progress_counterexample :
    List.lookup "Status" (create_assignment_page_props (libConst 5) 5 "CS101"
        { baseAssignment with due_at := some "2099-01-01T00:00:00Z" } none)
      = some (PropValue.select "Not Started") ∧
    PropValue.select "Not Started" ≠ PropValue.select "In Progress" :=
  ⟨rfl, by decide⟩

/-- C5 amended: for every record with no submission and a due date at or
after `now`, the resolved status label is `Not Started` (not `Overdue` or
`Completed`). -/
theorem due_not_past_no_submission_not_started (lib : DatetimeLib) (now : Int)
    (cname : String) (a : Assignment) (d : Int)
    (hparse : parse_canvas_datetime lib.fromisoformat a.due_at = some d)
    (hd : now ≤ d) :
    List.lookup "Status" (create_assignment_page_props lib now cname a none)
      = some (PropValue.select "Not Started") := by
  rw [props_lookup_Status, hparse]
  have hlt : ¬ (d < now) := not_lt.mpr hd
  simp [resolve_status, hlt]

/-- Concrete instantiation of `due_not_past_no_submission_not_started`: due
instant 5, `now` = 5. -/
theorem due_not_past_no_submission_not_started_witness :
    List.lookup "Status" (create_assignment_page_props (libConst 5) 5 "CS101"
        { baseAssignment with due_at := some "2099-01-01T00:00:00Z" } none)
      = some (PropValue.select "Not Started") :=
  due_not_past_no_submission_not_started (libConst 5) 5 "CS101"
    { baseAssignment with due_at := some "2099-01-01T00:00:00Z" } 5 rfl
    (by decide)

/-- C7 counterexample: for a record with `html_url` absent, the `Link`
property is still sent, carrying an explicit null url value, rather than
being omitted from the payload. -/
theorem link_sent_as_null_counterexample :
    List.lookup "Link" (create_assignment_page_props lib0 0 "CS101"
        baseAssignment none) = some (PropValue.url none) ∧
    List.lookup "Link" (create_assignment_page_props lib0 0 "CS101"
        baseAssignment none) ≠ none :=
  ⟨rfl, by decide⟩

/-- C7 amended: each optional date and number property (`Due Date`,
`Assignment Updated Date`, `Submitted Date`, `Points`, `Score`) is omitted
from the payload exactly when the corresponding source value is absent (and
carries the formatted value when present), but the `Link` property is always
sent, with `html_url` as its url value — an explicit null when `html_url` is
absent. -/
theorem optional_fields_payload (lib : DatetimeLib) (now : Int)
    (cname : String) (a : Assignment) (sub : Option Submission) :
    List.lookup "Due Date" (create_assignment_page_props lib now cname a sub)
        = (parse_canvas_datetime lib.fromisoformat a.due_at).map
            (fun d => PropValue.date (lib.dateIsoformat d)) ∧
    List.lookup "Assignment Updated Date"
        (create_assignment_page_props lib now cname a sub)
        = (parse_canvas_datetime lib.fromisoformat a.updated_at).map
            (fun u => PropValue.date (lib.isoformat u)) ∧
    List.lookup "Submitted Date"
        (create_assignment_page_props lib now cname a sub)
        = (match sub with
           | some s => parse_canvas_datetime lib.fromisoformat s.submitted_at
           | none => none).map (fun t => PropValue.date (lib.isoformat t)) ∧
    List.lookup "Points" (create_assignment_page_props lib now cname a sub)
        = a.points_possible.map PropValue.number ∧
    List.lookup "Score" (create_assignment_page_props lib now cname a sub)
        = (match sub with
           | some s => s.score
           | none => none).map PropValue.number ∧
    List.lookup "Link" (create_assignment_page_props lib now cname a sub)
        = some (PropValue.url a.html_url) :=
  ⟨props_lookup_DueDate lib now cname a sub,
   props_lookup_UpdatedDate lib now cname a sub,
   props_lookup_SubmittedDate lib now cname a sub,
   props_lookup_Points lib now cname a sub,
   props_lookup_Score lib now cname a sub,
   props_lookup_Link lib now cname a sub⟩

/-- C8 counterexample: a description containing HTML markup is stored
verbatim — the markup is not stripped (the stored text still contains the
tag characters), contradicting the claimed sanitization. -/
theorem description_markup_kept_counterexample :
    List.lookup "Description" (create_assignment_page_props lib0 0 "CS101"
        { baseAssignment with description := some "<b>Hi</b>" } none)
      = some (PropValue.rich_text "<b>Hi</b>") ∧
    Char.ofNat 60 ∈ String.data "<b>Hi</b>" :=
  ⟨rfl, by decide⟩

/-- C8 amended: for every record with a present, non-empty description, the
stored `Description` value is the raw description text truncated to its
first 1900 characters; no HTML stripping or entity unescaping happens. -/
theorem description_raw_truncated (lib : DatetimeLib) (now : Int)
    (cname : String) (a : Assignment) (sub : Option Submission) (d : String)
    (hdesc : a.description = some d) (hne : d ≠ "") :
    List.lookup "Description"
        (create_assignment_page_props lib now cname a sub)
      = some (PropValue.rich_text (String.mk (d.data.take 1900))) := by
  rw [props_lookup_Description, hdesc]
  simp [hne]

/-- Concrete instantiation of `description_raw_truncated`. -/
theorem description_raw_truncated_witness :
    List.lookup "Description" (create_assignment_page_props lib0 0 "CS101"
        { baseAssignment with description := some "<b>Hi</b>" } none)
      = some (PropValue.rich_text
          (String.mk (String.data "<b>Hi</b>" |>.take 1900))) :=
  description_raw_truncated lib0 0 "CS101"
    { baseAssignment with description := some "<b>Hi</b>" } none "<b>Hi</b>"
    rfl (by decide)

/-- C9: a submission score of exactly 0 is a real value — the `Score`
property is sent with number 0 — while an absent score omits the `Score`
property entirely. -/
theorem score_zero_vs_absent (lib : DatetimeLib) (now : Int) (cname : String)
    (a : Assignment) (s t : Submission)
    (hs : s.score = some 0) (ht : t.score = none) :
    List.lookup "Score" (create_assignment_page_props lib now cname a (some s))
        = some (PropValue.number 0) ∧
    List.lookup "Score" (create_assignment_page_props lib now cname a (some t))
        = none := by
  constructor
  · rw [props_lookup_Score]
    simp [hs]
  · rw [props_lookup_Score]
    simp [ht]

/-- Concrete instantiation of `score_zero_vs_absent`. -/
theorem score_zero_vs_absent_witness :
    List.lookup "Score" (create_assignment_page_props lib0 0 "CS101"
        baseAssignment
        (some { workflow_state := none, submitted_at := none,
                score := some 0 }))
        = some (PropValue.number 0) ∧
    List.lookup "Score" (create_assignment_page_props lib0 0 "CS101"
        baseAssignment
        (some { workflow_state := none, submitted_at := none, score := none }))
        = none :=
  score_zero_vs_absent lib0 0 "CS101" baseAssignment
    { workflow_state := none, submitted_at := none, score := some 0 }
    { workflow_state := none, submitted_at := none, score := none }
    rfl rfl

/-- C10: the Status select value of every created page belongs to the
four-option set declared for the `Status` field in the schema of the freshly
created database. -/
theorem status_in_schema_options (lib : DatetimeLib) (now : Int)
    (cname : String) (a : Assignment) (sub : Option Submission) :
    ∃ st, List.lookup "Status"
            (create_assignment_page_props lib now cname a sub)
          = some (PropValue.select st) ∧ st ∈ schema_status_options := by
  refine ⟨resolve_status now
      (parse_canvas_datetime lib.fromisoformat a.due_at) sub.isSome,
    props_lookup_Status lib now cname a sub, ?_⟩
  have hopts : schema_status_options
      = ["Overdue", "In Progress", "Completed", "Not Started"] := rfl
  rw [hopts]
  unfold resolve_status
  split
  · simp
  · split
    · simp
    · simp

/-- C2 counterexample: calling the reconciler twice with the same unchanged
record (against an initially empty store) leaves two target records whose
identity field equals the record's natural key — not the claimed exactly
one: the script has no lookup-by-natural-key and always creates. -/
theorem upsert_twice_two_records :
    countWithKey (toString baseAssignment.id)
      (create_assignment_page lib0 0 "CS101" baseAssignment none
        (create_assignment_page lib0 0 "CS101" baseAssignment none [])) = 2 := by
  decide

/-- C2 amended: the reconciler operates in full-recreate mode only: every
call appends a freshly built page with no natural-key lookup or patch, so two
calls with an unchanged record yield two target records carrying the natural
key, both with identical properties (those of the second call). -/
theorem upsert_always_creates (lib : DatetimeLib) (now : Int) (cname : String)
    (a : Assignment) (sub : Option Submission) :
    create_assignment_page lib now cname a sub
        (create_assignment_page lib now cname a sub [])
      = [{ props := create_assignment_page_props lib now cname a sub },
         { props := create_assignment_page_props lib now cname a sub }] ∧
    countWithKey (toString a.id)
      (create_assignment_page lib now cname a sub
        (create_assignment_page lib now cname a sub [])) = 2 := by
  constructor
  · rfl
  · simp [countWithKey, create_assignment_page, record_identity_matches,
      props_lookup_ID]

/-- A child block of the Notion parent page as inspected by
`archive_existing_database`: its block type, its id, and (for
`child_database` blocks) its title. -/
structure NotionChild where
  block_type : String
  id : String
  title : String
  deriving Repr, DecidableEq

/-- An observable store-mutating call issued against the Notion API during
the migration portion of `main`. -/
inductive MigrationEvent
  | archiveStore (db_id : String)
  | createStore (title : String)
  deriving Repr, DecidableEq

/-- Embeds `archive_existing_database` (src lines 227-268): it walks the
children of the parent page (pagination flattened into one list, in order)
and PATCHes `archived: true` on every `child_database` child whose title
equals the configured title.  The result is the list of archive calls it
issues, in order. -/
def archive_existing_database (db_title : String)
    (children : List NotionChild) : List MigrationEvent :=
  children.filterMap fun child =>
    if child.block_type = "child_database" ∧ child.title = db_title then
      some (MigrationEvent.archiveStore child.id)
    else none

/-- Embeds `create_new_database` (src lines 310-338) as the single create
call it issues. -/
def create_new_database (db_title : String) : MigrationEvent :=
  MigrationEvent.createStore db_title

/-- Embeds the schema-migration portion of `main` (src lines 493-495): first
`archive_existing_database()`, then `create_new_database()`; the trace is
the sequence of store-mutating calls in program order. -/
def main_migration_trace (db_title : String) (children : List NotionChild) :
    List MigrationEvent :=
  archive_existing_database db_title children
    ++ [create_new_database db_title]

def isCreateEvent : MigrationEvent → Bool
  | MigrationEvent.createStore _ => true
  | MigrationEvent.archiveStore _ => false

def isArchiveEvent : MigrationEvent → Bool
  | MigrationEvent.archiveStore _ => true
  | MigrationEvent.createStore _ => false

/-- The create-before-archive ordering property of a migration trace: every
create call precedes every archive call. -/
def create_before_archive (tr : List MigrationEvent) : Prop :=
  ∀ i j, (hi : i < tr.length) → (hj : j < tr.length) →
    isCreateEvent (tr.get ⟨i, hi⟩) = true →
    isArchiveEvent (tr.get ⟨j, hj⟩) = true → i < j

/-- Every event emitted by `archive_existing_database` is an archive call. -/
theorem archive_events_are_archives (db_title : String)
    (children : List NotionChild) (e : MigrationEvent)
    (he : e ∈ archive_existing_database db_title children) :
    isArchiveEvent e = true := by
  simp only [archive_existing_database, List.mem_filterMap] at he
  obtain ⟨c, _, hc⟩ := he
  by_cases h : c.block_type = "child_database" ∧ c.title = db_title
  · rw [if_pos h] at hc
    cases hc
    rfl
  · rw [if_neg h] at hc
    exact Option.noConfusion hc

/-- C1 counterexample: when one live store with the configured title already
exists under the parent, the run's migration trace is the archive call
followed by the create call — the new store is created strictly after the
old one is archived, so create-before-archive fails (and a failure between
the two steps leaves no live store of that title, not "exactly one"). -/
theorem migration_create_before_archive_counterexample :
    main_migration_trace "Canvas Course - Track Assignments"
        [{ block_type := "child_database", id := "db-1",
           title := "Canvas Course - Track Assignments" }]
      = [MigrationEvent.archiveStore "db-1",
         MigrationEvent.createStore "Canvas Course - Track Assignments"] ∧
    ¬ create_before_archive (main_migration_trace
        "Canvas Course - Track Assignments"
        [{ block_type := "child_database", id := "db-1",
           title := "Canvas Course - Track Assignments" }]) := by
  refine ⟨rfl, fun h => ?_⟩
  have h2 := h 1 0 (by decide) (by decide) (by decide) (by decide)
  omega

/-- C1 amended: in every run that performs schema migration, every archive
call on a previously discovered store of the same title precedes the
creation of the new target store (archive-before-create): a failure before
the archive step leaves the old store live and untouched, while a failure
after archiving but before the create step leaves no live store of that
title. -/
theorem migration_archive_before_create (db_title : String)
    (children : List NotionChild) (i j : Nat)
    (hi : i < (main_migration_trace db_title children).length)
    (hj : j < (main_migration_trace db_title children).length)
    (ha : isArchiveEvent
      ((main_migration_trace db_title children).get ⟨i, hi⟩) = true)
    (hc : isCreateEvent
      ((main_migration_trace db_title children).get ⟨j, hj⟩) = true) :
    i < j := by
  have hlen : (main_migration_trace db_title children).length
      = (archive_existing_database db_title children).length + 1 := by
    simp [main_migration_trace]
  have hj_ge : ¬ j < (archive_existing_database db_title children).length := by
    intro hjA
    have hmem : (main_migration_trace db_title children).get ⟨j, hj⟩
        ∈ archive_existing_database db_title children := by
      have hgj : (main_migration_trace db_title children).get ⟨j, hj⟩
          = (archive_existing_database db_title children).get ⟨j, hjA⟩ := by
        simp only [List.get_eq_getElem, main_migration_trace]
        exact List.getElem_append_left hjA
      rw [hgj]
      exact List.get_mem _ _ _
    have harch := archive_events_are_archives db_title children _ hmem
    cases hx : (main_migration_trace db_title children).get ⟨j, hj⟩ with
    | archiveStore d =>
      rw [hx] at hc
      exact Bool.noConfusion hc
    | createStore t =>
      rw [hx] at harch
      exact Bool.noConfusion harch
  have hi_lt : i < (archive_existing_database db_title children).length := by
    by_contra hge
    have hiA : i = (archive_existing_database db_title children).length := by
      omega
    have hgi : (main_migration_trace db_title children).get ⟨i, hi⟩
        = create_new_database db_title := by
      simp only [List.get_eq_getElem, main_migration_trace]
      exact List.getElem_concat_length _ _ _ hiA _
    rw [hgi] at ha
    exact Bool.noConfusion ha
  omega

/-- Concrete instantiation of `migration_archive_before_create`: with one
matching pre-existing store, the archive call (index 0) precedes the create
call (index 1). -/
theorem migration_archive_before_create_witness : (0 : Nat) < 1 :=
  migration_archive_before_create "Canvas Course - Track Assignments"
    [{ block_type := "child_database", id := "db-1",
       title := "Canvas Course - Track Assignments" }]
    0 1 (by decide) (by decide) (by decide) (by decide)

end CanvasToNotion
